import Mathlib

/-!
Shallow embedding of the tool-augmented conversation orchestrator of
`src/backend/core/utils/bot.py` (class `WeatherAIService`), together with the
parts of its environment it interacts with (the OpenWeather client of
`src/backend/core/utils/weather_api.py`, abstracted as a record of effectful
operations, and the completion backend, abstracted as a function argument).

Modelling conventions:
* Python dicts holding JSON-like data are the inductive `JVal`; keyword
  argument dicts are association lists `ArgDict`.
* Python exceptions are `Except PyErr`; a function that can raise returns
  `Except PyErr _` and an uncaught exception propagates monadically.
* `json.loads(tool_call.function.arguments)` is modelled by storing the
  arguments already in parsed form (`ArgDict`); the argument string and its
  parse are identified.
* The self-recursion of `generate_response` is modelled with an explicit fuel
  parameter (the finite Python call stack); exhausting the fuel yields the
  distinguished error `PyErr.recursionLimit` (Python's `RecursionError`), so
  "never returns within any finite budget" is expressible.
-/

namespace WeatherBot

/-- JSON-like values (Python dicts/lists/strings/numbers as used by the bot). -/
inductive JVal where
  | null : JVal
  | bool : Bool → JVal
  | num : Int → JVal
  | str : String → JVal
  | arr : List JVal → JVal
  | obj : List (String × JVal) → JVal

/-- A parsed keyword-argument dictionary (`json.loads` of the argument string). -/
abbrev ArgDict := List (String × JVal)

mutual

/-- `json.dumps` on a `JVal` (default separators). -/
def json_dumps : JVal → String
  | .null => "null"
  | .bool true => "true"
  | .bool false => "false"
  | .num n => toString n
  | .str s => "\x22" ++ s ++ "\x22"
  | .arr l => "[" ++ dumpsElems l ++ "]"
  | .obj l => "\x7b" ++ dumpsFields l ++ "\x7d"

/-- Comma-separated serialization of array elements. -/
def dumpsElems : List JVal → String
  | [] => ""
  | [v] => json_dumps v
  | v :: rest => json_dumps v ++ ", " ++ dumpsElems rest

/-- Comma-separated serialization of object fields. -/
def dumpsFields : List (String × JVal) → String
  | [] => ""
  | [(k, v)] => "\x22" ++ k ++ "\x22: " ++ json_dumps v
  | (k, v) :: rest => "\x22" ++ k ++ "\x22: " ++ json_dumps v ++ ", " ++ dumpsFields rest

end

/-- The `function` field of a tool call (`tool_call.function`). -/
structure ToolCallFunction where
  name : String
  arguments : ArgDict

/-- A tool call as emitted by the completion backend (and as the dict the
orchestrator rebuilds into `result["tool_calls"]`). -/
structure ToolCall where
  id : String
  type : String
  function : ToolCallFunction

/-- A conversation message dict. `tool_calls = []` models both an absent key
and an empty list (both falsy under `msg.get("tool_calls")`). -/
structure Msg where
  role : String
  content : Option String
  tool_calls : List ToolCall
  tool_call_id : Option String

/-- Python exceptions relevant to the orchestrator. -/
inductive PyErr where
  | typeError (msg : String)
  | upstreamError (msg : String)
  | recursionLimit
deriving DecidableEq

/-- `response.choices[0].message` of a completion response. -/
structure RespMsg where
  content : Option String
  tool_calls : List ToolCall

/-- The external OpenWeather client (`core.utils.weather_api.OpenWeatherService`):
each operation performs HTTP and may raise; it is abstracted as a record of
functions returning `Except String` (the carried string is `str(e)`). -/
structure OpenWeatherService where
  get_current_weather : JVal → JVal → Except String JVal
  get_forecast : JVal → JVal → JVal → Except String JVal
  get_coordinates : JVal → Except String JVal
  get_weather_by_coordinates : JVal → JVal → JVal → Except String JVal
  get_air_pollution : JVal → JVal → Except String JVal

/-- First binding of a key in a kwargs dict. -/
def lookupArg (args : ArgDict) (k : String) : Option JVal :=
  (args.find? (fun p => p.1 == k)).map (fun p => p.2)

/-- Python keyword binding: every supplied key must be a parameter name,
otherwise the call raises `TypeError` before the function body runs. -/
def argKeysOk (allowed : List String) (args : ArgDict) : Bool :=
  args.all (fun p => allowed.contains p.1)

/-- Dict subscription `coords["latitude"]`: `KeyError` if the key is absent. -/
def jIndex (v : JVal) (k : String) : Except String JVal :=
  match v with
  | .obj fields =>
    match (fields.find? (fun p => p.1 == k)).map (fun p => p.2) with
    | some x => .ok x
    | none => .error ("KeyError: " ++ k)
  | _ => .error ("TypeError: value is not subscriptable: " ++ k)

/-- A registered handler: called with the parsed kwargs, may raise. -/
abbrev Handler := ArgDict → Except PyErr JVal

/-- `WeatherAIService._get_current_weather_wrapper(self, location, units="metric")`.
Keyword binding happens at the call boundary (outside the wrapper's `try`),
so binding failures raise; inside the body every exception of the weather
client is caught and turned into an error payload. -/
def _get_current_weather_wrapper (svc : OpenWeatherService) (args : ArgDict) :
    Except PyErr JVal :=
  if !argKeysOk ["location", "units"] args then
    .error (.typeError "unexpected keyword argument")
  else
    match lookupArg args "location" with
    | none => .error (.typeError "missing required argument: location")
    | some location =>
      let units := (lookupArg args "units").getD (.str "metric")
      match svc.get_current_weather location units with
      | .ok v => .ok v
      | .error e => .ok (.obj [("error", .str e), ("location", location)])

/-- `WeatherAIService._get_forecast_wrapper(self, location, days=5, units="metric")`. -/
def _get_forecast_wrapper (svc : OpenWeatherService) (args : ArgDict) :
    Except PyErr JVal :=
  if !argKeysOk ["location", "days", "units"] args then
    .error (.typeError "unexpected keyword argument")
  else
    match lookupArg args "location" with
    | none => .error (.typeError "missing required argument: location")
    | some location =>
      let days := (lookupArg args "days").getD (.num 5)
      let units := (lookupArg args "units").getD (.str "metric")
      match svc.get_forecast location days units with
      | .ok v => .ok v
      | .error e => .ok (.obj [("error", .str e), ("location", location)])

/-- `WeatherAIService._get_coordinates_wrapper(self, location)`. -/
def _get_coordinates_wrapper (svc : OpenWeatherService) (args : ArgDict) :
    Except PyErr JVal :=
  if !argKeysOk ["location"] args then
    .error (.typeError "unexpected keyword argument")
  else
    match lookupArg args "location" with
    | none => .error (.typeError "missing required argument: location")
    | some location =>
      match svc.get_coordinates location with
      | .ok v => .ok v
      | .error e => .ok (.obj [("error", .str e), ("location", location)])

/-- `WeatherAIService._get_weather_by_coordinates_wrapper(self, latitude, longitude, units="metric")`.
Its error payload carries only `"error"` (no location). -/
def _get_weather_by_coordinates_wrapper (svc : OpenWeatherService) (args : ArgDict) :
    Except PyErr JVal :=
  if !argKeysOk ["latitude", "longitude", "units"] args then
    .error (.typeError "unexpected keyword argument")
  else
    match lookupArg args "latitude", lookupArg args "longitude" with
    | some latitude, some longitude =>
      let units := (lookupArg args "units").getD (.str "metric")
      match svc.get_weather_by_coordinates latitude longitude units with
      | .ok v => .ok v
      | .error e => .ok (.obj [("error", .str e)])
    | _, _ => .error (.typeError "missing required argument: latitude/longitude")

/-- `WeatherAIService._get_air_quality_wrapper(self, location)`: looks up
coordinates, then air pollution; every exception of the body (including a
`KeyError` on the coords dict) is caught into the error payload. -/
def _get_air_quality_wrapper (svc : OpenWeatherService) (args : ArgDict) :
    Except PyErr JVal :=
  if !argKeysOk ["location"] args then
    .error (.typeError "unexpected keyword argument")
  else
    match lookupArg args "location" with
    | none => .error (.typeError "missing required argument: location")
    | some location =>
      let body : Except String JVal := do
        let coords ← svc.get_coordinates location
        let lat ← jIndex coords "latitude"
        let lon ← jIndex coords "longitude"
        svc.get_air_pollution lat lon
      match body with
      | .ok v => .ok v
      | .error e => .ok (.obj [("error", .str e), ("location", location)])

/-- The `function` part of a registered tool schema. -/
structure ToolSchemaFunction where
  name : String
  description : String
  parameters : JVal

/-- One entry of `self.function_schemas`. -/
structure ToolSchema where
  type : String
  function : ToolSchemaFunction

/-- The registry state: `self.functions` (a Python dict, modelled as an
association list with in-place overwrite) and `self.function_schemas`. -/
structure Registry where
  functions : List (String × Handler)
  function_schemas : List ToolSchema

/-- Python dict assignment `d[k] = v`: overwrite in place, else append. -/
def dictInsert (d : List (String × α)) (k : String) (v : α) : List (String × α) :=
  match d with
  | [] => [(k, v)]
  | (k', v') :: rest =>
    if k' == k then (k, v) :: rest else (k', v') :: dictInsert rest k v

/-- Python dict lookup `d[k]` / membership `k in d`. -/
def lookupFn (d : List (String × α)) (k : String) : Option α :=
  (d.find? (fun p => p.1 == k)).map (fun p => p.2)

/-- `WeatherAIService.register_function(self, func, name, description, parameters)`:
stores the handler and appends a schema entry; there is no duplicate check. -/
def register_function (reg : Registry) (func : Handler) (name : String)
    (description : String) (parameters : JVal) : Registry :=
  { functions := dictInsert reg.functions name func,
    function_schemas := reg.function_schemas ++
      [{ type := "function",
         function := { name := name, description := description,
                       parameters := parameters } }] }

/-- Parameter schema of `get_current_weather` (transcribed from the source). -/
def currentWeatherParams : JVal :=
  .obj [("type", .str "object"),
        ("properties", .obj
          [("location", .obj
             [("type", .str "string"),
              ("description", .str "City name, optionally with country code (e.g., \x27London\x27, \x27London,UK\x27)")]),
           ("units", .obj
             [("type", .str "string"),
              ("enum", .arr [.str "metric", .str "imperial"]),
              ("description", .str "Units for temperature and wind speed"),
              ("default", .str "metric")])]),
        ("required", .arr [.str "location"])]

/-- Parameter schema of `get_weather_forecast`. -/
def forecastParams : JVal :=
  .obj [("type", .str "object"),
        ("properties", .obj
          [("location", .obj
             [("type", .str "string"),
              ("description", .str "City name, optionally with country code")]),
           ("days", .obj
             [("type", .str "integer"),
              ("description", .str "Number of days to forecast (1-5)"),
              ("minimum", .num 1),
              ("maximum", .num 5),
              ("default", .num 5)]),
           ("units", .obj
             [("type", .str "string"),
              ("enum", .arr [.str "metric", .str "imperial"]),
              ("description", .str "Units for temperature"),
              ("default", .str "metric")])]),
        ("required", .arr [.str "location"])]

/-- Parameter schema of `get_location_coordinates`. -/
def coordinatesParams : JVal :=
  .obj [("type", .str "object"),
        ("properties", .obj
          [("location", .obj
             [("type", .str "string"),
              ("description", .str "City name or location")])]),
        ("required", .arr [.str "location"])]

/-- Parameter schema of `get_weather_by_coordinates`. -/
def weatherByCoordinatesParams : JVal :=
  .obj [("type", .str "object"),
        ("properties", .obj
          [("latitude", .obj
             [("type", .str "number"),
              ("description", .str "Latitude coordinate")]),
           ("longitude", .obj
             [("type", .str "number"),
              ("description", .str "Longitude coordinate")]),
           ("units", .obj
             [("type", .str "string"),
              ("enum", .arr [.str "metric", .str "imperial"]),
              ("default", .str "metric")])]),
        ("required", .arr [.str "latitude", .str "longitude"])]

/-- Parameter schema of `get_air_quality`. -/
def airQualityParams : JVal :=
  .obj [("type", .str "object"),
        ("properties", .obj
          [("location", .obj
             [("type", .str "string"),
              ("description", .str "City name or location")])]),
        ("required", .arr [.str "location"])]

/-- `WeatherAIService._register_all_functions`: the five registrations of
`__init__`, in source order, starting from the empty registry. -/
def _register_all_functions (svc : OpenWeatherService) (reg : Registry) : Registry :=
  let reg := register_function reg (_get_current_weather_wrapper svc)
    "get_current_weather"
    "Get current weather conditions for any city or location worldwide."
    currentWeatherParams
  let reg := register_function reg (_get_forecast_wrapper svc)
    "get_weather_forecast"
    "Get weather forecast for upcoming days (up to 5 days) with 3-hour intervals."
    forecastParams
  let reg := register_function reg (_get_coordinates_wrapper svc)
    "get_location_coordinates"
    "Get geographic coordinates for any location."
    coordinatesParams
  let reg := register_function reg (_get_weather_by_coordinates_wrapper svc)
    "get_weather_by_coordinates"
    "Get current weather using latitude and longitude coordinates."
    weatherByCoordinatesParams
  let reg := register_function reg (_get_air_quality_wrapper svc)
    "get_air_quality"
    "Get current air quality index and pollution levels for a location."
    airQualityParams
  reg

/-- The registry as built by `WeatherAIService.__init__`. -/
def initRegistry (svc : OpenWeatherService) : Registry :=
  _register_all_functions svc { functions := [], function_schemas := [] }

/-- The history-sanitization loop opening `generate_response` (bot.py lines
242-257), with the `expecting_tool_result` flag made explicit. A `tool`
message is kept only if the flag is set, and clears it; an `assistant`
message with truthy `tool_calls` sets it; every other message leaves it
unchanged and is kept. -/
def sanitizeAux (expecting_tool_result : Bool) : List Msg → List Msg
  | [] => []
  | msg :: rest =>
    if msg.role == "tool" then
      if expecting_tool_result then
        msg :: sanitizeAux false rest
      else
        sanitizeAux expecting_tool_result rest
    else
      if msg.role == "assistant" && !msg.tool_calls.isEmpty then
        msg :: sanitizeAux true rest
      else
        msg :: sanitizeAux expecting_tool_result rest

/-- `cleaned_messages` as computed at the top of `generate_response`. -/
def sanitize (messages : List Msg) : List Msg :=
  sanitizeAux false messages

/-- One entry of `result["tool_results"]`. -/
structure ToolResultRec where
  tool_call_id : String
  function_name : String
  function_args : ArgDict
  result : JVal

/-- The `result` dict returned by `generate_response` (the in-memory
`message_obj` field is not modelled; no claim inspects it). -/
structure GenResult where
  response : Option String
  tool_calls : List ToolCall
  tool_results : List ToolResultRec
  needs_continuation : Bool

/-- The tool-execution loop of `generate_response` (bot.py lines 282-307):
every requested call is appended to `result["tool_calls"]`; only calls whose
name is a key of `self.functions` are executed and get an entry in
`result["tool_results"]`; an exception raised by a handler is not caught and
aborts the whole call. -/
def runToolCalls (functions : List (String × Handler)) :
    List ToolCall → Except PyErr (List ToolCall × List ToolResultRec)
  | [] => .ok ([], [])
  | tool_call :: rest =>
    let function_name := tool_call.function.name
    let function_args := tool_call.function.arguments
    let callRec : ToolCall :=
      { id := tool_call.id, type := tool_call.type,
        function := { name := function_name,
                      arguments := tool_call.function.arguments } }
    match lookupFn functions function_name with
    | some f =>
      match f function_args with
      | .error e => .error e
      | .ok function_result =>
        match runToolCalls functions rest with
        | .error e => .error e
        | .ok (calls, results) =>
          .ok (callRec :: calls,
               { tool_call_id := tool_call.id,
                 function_name := function_name,
                 function_args := function_args,
                 result := function_result } :: results)
    | none =>
      match runToolCalls functions rest with
      | .error e => .error e
      | .ok (calls, results) => .ok (callRec :: calls, results)

/-- The assistant message appended after a round of tool calls
(bot.py lines 310-314). -/
def assistantToolMsg (content : Option String) (calls : List ToolCall) : Msg :=
  { role := "assistant", content := content, tool_calls := calls,
    tool_call_id := none }

/-- The `tool` message appended for one tool result (bot.py lines 317-322). -/
def toolResultMsg (r : ToolResultRec) : Msg :=
  { role := "tool", content := some (json_dumps r.result), tool_calls := [],
    tool_call_id := some r.tool_call_id }

/-- The completion backend (`self.client.chat.completions.create` followed by
`response.choices[0].message`): receives the registered tool schemas and the
cleaned message list, returns a message or raises (an openai error, modelled
as `PyErr.upstreamError`). Model/temperature/max_tokens are fixed
configuration and are not modelled. -/
abbrev Backend := List ToolSchema → List Msg → Except PyErr RespMsg

/-- `WeatherAIService.generate_response` (bot.py lines 241-333), parameterized
by the weather client and the completion backend, with an explicit fuel
bounding the recursion depth (the Python call stack): fuel 0 models
`RecursionError`. When the completion requests tool calls, the assistant
message and one `tool` message per result are appended and the function
recurses, prepending this round's calls/results to the recursive outcome. -/
def generate_response (svc : OpenWeatherService) (backend : Backend) :
    Nat → List Msg → Except PyErr GenResult
  | 0, _ => .error .recursionLimit
  | fuel + 1, messages =>
    let cleaned_messages := sanitize messages
    match backend (initRegistry svc).function_schemas cleaned_messages with
    | .error e => .error e
    | .ok message =>
      let result : GenResult :=
        { response := message.content, tool_calls := [], tool_results := [],
          needs_continuation := false }
      if message.tool_calls.isEmpty then
        .ok result
      else
        match runToolCalls (initRegistry svc).functions message.tool_calls with
        | .error e => .error e
        | .ok (calls, tool_results) =>
          let newMessages :=
            (cleaned_messages ++ [assistantToolMsg message.content calls]) ++
              tool_results.map toolResultMsg
          match generate_response svc backend fuel newMessages with
          | .error e => .error e
          | .ok final_result =>
            .ok { final_result with
                  tool_calls := calls ++ final_result.tool_calls,
                  tool_results := tool_results ++ final_result.tool_results }

/-- The pairing property as the spec states it (claim C2): each retained
`tool` message, skipping over other retained `tool` messages, is immediately
preceded by an `assistant` message with non-empty `tool_calls`; the flag
records whether the nearest preceding non-`tool` message was such an
assistant turn. Written from the spec's words, to be compared with what
`sanitize` actually guarantees. -/
def immediatePairingAux (lastWasToolCallAssistant : Bool) : List Msg → Bool
  | [] => true
  | m :: rest =>
    if m.role == "tool" then
      lastWasToolCallAssistant && immediatePairingAux lastWasToolCallAssistant rest
    else
      immediatePairingAux (m.role == "assistant" && !m.tool_calls.isEmpty) rest

/-- The invariant `sanitize` really maintains, mirroring its flag discipline:
a `tool` message may appear only while the flag is set; an `assistant`
message with `tool_calls` sets the flag, a `tool` message clears it, and any
other message leaves it unchanged. -/
def toolPairedAux (expecting : Bool) : List Msg → Bool
  | [] => true
  | m :: rest =>
    if m.role == "tool" then
      expecting && toolPairedAux false rest
    else
      if m.role == "assistant" && !m.tool_calls.isEmpty then
        toolPairedAux true rest
      else
        toolPairedAux expecting rest

/-! Concrete fixtures used by counterexamples and witnesses. -/

/-- A weather client whose every operation succeeds with a fixed payload. -/
def svc0 : OpenWeatherService where
  get_current_weather := fun _ _ =>
    .ok (.obj [("temperature", .num 18), ("description", .str "clear sky")])
  get_forecast := fun _ _ _ => .ok .null
  get_coordinates := fun _ => .ok .null
  get_weather_by_coordinates := fun _ _ _ => .ok .null
  get_air_pollution := fun _ _ => .ok .null

/-- A weather client whose current-weather lookup raises. -/
def svcErr : OpenWeatherService where
  get_current_weather := fun _ _ => .error "Location not found"
  get_forecast := fun _ _ _ => .ok .null
  get_coordinates := fun _ => .ok .null
  get_weather_by_coordinates := fun _ _ _ => .ok .null
  get_air_pollution := fun _ _ => .ok .null

/-- A plain user message. -/
def userHi : Msg :=
  { role := "user", content := some "What is the weather in Paris?",
    tool_calls := [], tool_call_id := none }

/-- A well-formed call of the registered `get_current_weather` tool. -/
def tcParis : ToolCall :=
  { id := "t1", type := "function",
    function := { name := "get_current_weather",
                  arguments := [("location", .str "Paris")] } }

/-- A call whose name matches no registered tool. -/
def tcUnknown : ToolCall :=
  { id := "u1", type := "function",
    function := { name := "mystery_tool",
                  arguments := [("location", .str "Paris")] } }

/-- A call of a registered tool with the required `location` argument absent:
Python keyword binding raises `TypeError` before the wrapper body runs. -/
def tcBadArgs : ToolCall :=
  { id := "b1", type := "function",
    function := { name := "get_current_weather", arguments := [] } }

/-- An assistant message announcing a tool call. -/
def asstTC : Msg :=
  { role := "assistant", content := some "Let me check.",
    tool_calls := [tcParis], tool_call_id := none }

/-- A tool-result message answering `tcParis`. -/
def toolMsg : Msg :=
  { role := "tool", content := some "null", tool_calls := [],
    tool_call_id := some "t1" }

/-- A completion backend that requests a tool call on every round. -/
def backendAlwaysTool : Backend :=
  fun _ _ => .ok { content := some "Let me check.", tool_calls := [tcParis] }

/-- A completion backend that immediately answers with text. -/
def backendDone : Backend :=
  fun _ _ => .ok { content := some "hello", tool_calls := [] }

/-- A completion backend that terminates with null text and no tool calls. -/
def backendNullDone : Backend :=
  fun _ _ => .ok { content := none, tool_calls := [] }

/-- A completion backend that requests one tool call, then answers once a
tool result appears in the history. -/
def backendOnce : Backend :=
  fun _ ms =>
    if ms.any (fun m => m.role == "tool") then
      .ok { content := some "It is 18 C and clear in Paris.", tool_calls := [] }
    else
      .ok { content := none, tool_calls := [tcParis] }

/-- A completion backend that requests a registered tool with missing
required arguments. -/
def backendBadArgs : Backend :=
  fun _ _ => .ok { content := some "Let me check.", tool_calls := [tcBadArgs] }

/-! Sanitizer lemmas. -/

theorem sanitizeAux_sublist (l : List Msg) : ∀ b, List.Sublist (sanitizeAux b l) l := by
  induction l with
  | nil => intro b; exact List.Sublist.refl _
  | cons m rest ih =>
    intro b
    simp only [sanitizeAux]
    split
    · split
      · exact (ih false).cons₂ m
      · exact (ih b).cons m
    · split
      · exact (ih true).cons₂ m
      · exact (ih b).cons₂ m

theorem sanitizeAux_filter_nonTool (l : List Msg) : ∀ b,
    (sanitizeAux b l).filter (fun m => !(m.role == "tool")) =
      l.filter (fun m => !(m.role == "tool")) := by
  induction l with
  | nil => intro b; rfl
  | cons m rest ih =>
    intro b
    simp only [sanitizeAux]
    split
    · rename_i h1
      split
      · simp [List.filter_cons, h1, ih]
      · simp [List.filter_cons, h1, ih]
    · rename_i h1
      split
      · simp [List.filter_cons, h1, ih]
      · simp [List.filter_cons, h1, ih]

theorem sanitizeAux_idem (l : List Msg) : ∀ b,
    sanitizeAux b (sanitizeAux b l) = sanitizeAux b l := by
  induction l with
  | nil => intro b; rfl
  | cons m rest ih =>
    intro b
    by_cases h1 : (m.role == "tool") = true
    · by_cases h2 : b = true
      · subst h2
        rw [show sanitizeAux true (m :: rest) = m :: sanitizeAux false rest by
          simp [sanitizeAux, h1]]
        rw [show sanitizeAux true (m :: sanitizeAux false rest) =
            m :: sanitizeAux false (sanitizeAux false rest) by simp [sanitizeAux, h1]]
        rw [ih false]
      · have hb : b = false := by simpa using h2
        subst hb
        rw [show sanitizeAux false (m :: rest) = sanitizeAux false rest by
          simp [sanitizeAux, h1]]
        exact ih false
    · by_cases h2 : (m.role == "assistant" && !m.tool_calls.isEmpty) = true
      · rw [show sanitizeAux b (m :: rest) = m :: sanitizeAux true rest by
          simp [sanitizeAux, h1, h2]]
        rw [show sanitizeAux b (m :: sanitizeAux true rest) =
            m :: sanitizeAux true (sanitizeAux true rest) by simp [sanitizeAux, h1, h2]]
        rw [ih true]
      · rw [show sanitizeAux b (m :: rest) = m :: sanitizeAux b rest by
          simp [sanitizeAux, h1, h2]]
        rw [show sanitizeAux b (m :: sanitizeAux b rest) =
            m :: sanitizeAux b (sanitizeAux b rest) by simp [sanitizeAux, h1, h2]]
        rw [ih b]

theorem toolPairedAux_sanitizeAux (l : List Msg) : ∀ b,
    toolPairedAux b (sanitizeAux b l) = true := by
  induction l with
  | nil => intro b; rfl
  | cons m rest ih =>
    intro b
    by_cases h1 : (m.role == "tool") = true
    · by_cases h2 : b = true
      · subst h2
        rw [show sanitizeAux true (m :: rest) = m :: sanitizeAux false rest by
          simp [sanitizeAux, h1]]
        rw [show toolPairedAux true (m :: sanitizeAux false rest) =
            toolPairedAux false (sanitizeAux false rest) by simp [toolPairedAux, h1]]
        exact ih false
      · have hb : b = false := by simpa using h2
        subst hb
        rw [show sanitizeAux false (m :: rest) = sanitizeAux false rest by
          simp [sanitizeAux, h1]]
        exact ih false
    · by_cases h2 : (m.role == "assistant" && !m.tool_calls.isEmpty) = true
      · rw [show sanitizeAux b (m :: rest) = m :: sanitizeAux true rest by
          simp [sanitizeAux, h1, h2]]
        rw [show toolPairedAux b (m :: sanitizeAux true rest) =
            toolPairedAux true (sanitizeAux true rest) by simp [toolPairedAux, h1, h2]]
        exact ih true
      · rw [show sanitizeAux b (m :: rest) = m :: sanitizeAux b rest by
          simp [sanitizeAux, h1, h2]]
        rw [show toolPairedAux b (m :: sanitizeAux b rest) =
            toolPairedAux b (sanitizeAux b rest) by simp [toolPairedAux, h1, h2]]
        exact ih b

theorem toolPairedAux_decomp :
    ∀ (pre : List Msg) (b : Bool) (m : Msg) (post : List Msg),
      toolPairedAux b (pre ++ m :: post) = true → m.role = "tool" →
      (b = true ∧ ∀ x ∈ pre, x.role ≠ "tool") ∨
      ∃ pre1 a mid, pre = pre1 ++ a :: mid ∧ a.role = "assistant" ∧
        a.tool_calls ≠ [] ∧ ∀ x ∈ mid, x.role ≠ "tool" := by
  intro pre
  induction pre with
  | nil =>
    intro b m post h hm
    left
    rw [List.nil_append] at h
    rw [show toolPairedAux b (m :: post) = (b && toolPairedAux false post) by
      simp [toolPairedAux, hm]] at h
    rw [Bool.and_eq_true] at h
    exact ⟨h.1, by intro x hx; cases hx⟩
  | cons y pre' ih =>
    intro b m post h hm
    rw [List.cons_append] at h
    by_cases hy : y.role = "tool"
    · rw [show toolPairedAux b (y :: (pre' ++ m :: post)) =
          (b && toolPairedAux false (pre' ++ m :: post)) by simp [toolPairedAux, hy]] at h
      rw [Bool.and_eq_true] at h
      rcases ih false m post h.2 hm with ⟨hb, _⟩ | ⟨pre1, a, mid, heq, ha1, ha2, hmid⟩
      · cases hb
      · exact Or.inr ⟨y :: pre1, a, mid, by rw [heq, List.cons_append], ha1, ha2, hmid⟩
    · by_cases hy2 : y.role = "assistant" ∧ y.tool_calls ≠ []
      · rw [show toolPairedAux b (y :: (pre' ++ m :: post)) =
            toolPairedAux true (pre' ++ m :: post) by
          simp [toolPairedAux, hy, hy2.1, hy2.2]] at h
        rcases ih true m post h hm with ⟨_, hpre⟩ | ⟨pre1, a, mid, heq, ha1, ha2, hmid⟩
        · exact Or.inr ⟨[], y, pre', by simp, hy2.1, hy2.2, hpre⟩
        · exact Or.inr ⟨y :: pre1, a, mid, by rw [heq, List.cons_append], ha1, ha2, hmid⟩
      · rw [show toolPairedAux b (y :: (pre' ++ m :: post)) =
            toolPairedAux b (pre' ++ m :: post) by
          have hcond : ¬ ((y.role == "assistant" && !y.tool_calls.isEmpty) = true) := by
            intro hc
            exact hy2 (by simpa using hc)
          simp [toolPairedAux, hy, hcond]] at h
        rcases ih b m post h hm with ⟨hb, hpre⟩ | ⟨pre1, a, mid, heq, ha1, ha2, hmid⟩
        · refine Or.inl ⟨hb, ?_⟩
          intro x hx
          rcases List.mem_cons.mp hx with hx | hx
          · rw [hx]; exact hy
          · exact hpre x hx
        · exact Or.inr ⟨y :: pre1, a, mid, by rw [heq, List.cons_append], ha1, ha2, hmid⟩

/-! Claim theorems. -/

/-- C9: for every input message sequence, the sanitizer's output is a
subsequence of the input preserving relative order, and every message whose
role is not `tool` is kept unchanged (the non-`tool` sublists of input and
output coincide); only `tool` messages are ever dropped. -/
theorem c9_sanitize_subsequence_only_tool_dropped (msgs : List Msg) :
    List.Sublist (sanitize msgs) msgs ∧
    (sanitize msgs).filter (fun m => !(m.role == "tool")) =
      msgs.filter (fun m => !(m.role == "tool")) :=
  ⟨sanitizeAux_sublist msgs false, sanitizeAux_filter_nonTool msgs false⟩

/-- C10: the sanitization pass is idempotent: applying it to its own output
returns that output unchanged. -/
theorem c10_sanitize_idempotent (msgs : List Msg) :
    sanitize (sanitize msgs) = sanitize msgs :=
  sanitizeAux_idem msgs false

/-- C2 counterexample: on the input assistant-with-tool-calls, user, tool,
the sanitizer keeps all three messages, so the kept `tool` message is
separated from its announcing assistant turn by an intervening kept `user`
message: the immediate-pairing property the claim states fails on this
output. -/
theorem c2_counterexample :
    sanitize [asstTC, userHi, toolMsg] = [asstTC, userHi, toolMsg] ∧
    immediatePairingAux false (sanitize [asstTC, userHi, toolMsg]) = false :=
  ⟨rfl, rfl⟩

/-- C2 (amended): every `tool` message retained in the sanitizer's output is
preceded by a retained `assistant` message with non-empty `tool_calls`, with
no other retained `tool` message in between; however, intervening kept
`user` or tool-call-free `assistant` messages may occur between the two,
because only `assistant`-with-tool-calls and `tool` messages update the
sanitizer's flag. -/
theorem c2_kept_tool_has_announcing_assistant (msgs : List Msg)
    (pre : List Msg) (m : Msg) (post : List Msg)
    (heq : sanitize msgs = pre ++ m :: post) (hm : m.role = "tool") :
    ∃ pre1 a mid, pre = pre1 ++ a :: mid ∧ a.role = "assistant" ∧
      a.tool_calls ≠ [] ∧ ∀ x ∈ mid, x.role ≠ "tool" := by
  have h := toolPairedAux_sanitizeAux msgs false
  rw [show sanitize msgs = sanitizeAux false msgs from rfl] at heq
  rw [heq] at h
  rcases toolPairedAux_decomp pre false m post h hm with ⟨hb, _⟩ | hex
  · cases hb
  · exact hex

/-- C2 witness: the amended pairing theorem applied to the concrete output of
sanitizing assistant-with-tool-calls followed by its tool result. -/
theorem c2_kept_tool_has_announcing_assistant_witness :
    ∃ pre1 a mid, [asstTC] = pre1 ++ a :: mid ∧ a.role = "assistant" ∧
      a.tool_calls ≠ [] ∧ ∀ x ∈ mid, x.role ≠ "tool" :=
  c2_kept_tool_has_announcing_assistant [asstTC, toolMsg] [asstTC] toolMsg [] rfl rfl

/-- C1 counterexample: with the spec's default resolution depth D = 1 the
claim promises termination after D+1 = 2 rounds, but against a backend that
always requests tool calls `generate_response` is still recursing when a
stack budget covering 2 rounds is spent: there is no round counter and no
forced-termination path in the source. -/
theorem c1_counterexample :
    generate_response svc0 backendAlwaysTool 2 [userHi] = .error .recursionLimit :=
  rfl

/-- C1 (amended): the source has no resolution-depth limit: against a
completion backend that on every call requests tool calls,
`generate_response` never returns a result — for every recursion budget it
either is still recursing or fails with an exception, never `.ok`. -/
theorem c1_always_tool_calls_never_returns (svc : OpenWeatherService)
    (backend : Backend)
    (halways : ∀ schemas ms, ∃ m, backend schemas ms = .ok m ∧ m.tool_calls ≠ []) :
    ∀ (fuel : Nat) (msgs : List Msg) (r : GenResult),
      generate_response svc backend fuel msgs ≠ .ok r := by
  intro fuel
  induction fuel with
  | zero =>
    intro msgs r h
    exact absurd h (by simp [generate_response])
  | succ n ih =>
    intro msgs r h
    simp only [generate_response] at h
    split at h
    · exact Except.noConfusion h
    · rename_i message hmsg
      obtain ⟨m, hm, hne⟩ := halways (initRegistry svc).function_schemas (sanitize msgs)
      rw [hm] at hmsg
      have hmm : m = message := Except.ok.inj hmsg
      subst hmm
      rw [if_neg (by simp [hne])] at h
      split at h
      · exact Except.noConfusion h
      · split at h
        · exact Except.noConfusion h
        · rename_i fr hrec
          exact ih _ fr hrec

/-- C1 witness: the no-return theorem applied to the concrete always-requesting
backend, a concrete fuel and a concrete candidate result. -/
theorem c1_always_tool_calls_never_returns_witness :
    generate_response svc0 backendAlwaysTool 3 [userHi] ≠
      .ok { response := none, tool_calls := [], tool_results := [],
            needs_continuation := false } :=
  c1_always_tool_calls_never_returns svc0 backendAlwaysTool
    (fun _ _ => ⟨{ content := some "Let me check.", tool_calls := [tcParis] },
      rfl, by simp⟩)
    3 [userHi] _

/-- C5 counterexample: a run in which a tool call was requested and resolved
returns a result whose accumulated `tool_calls` list is non-empty while
`needs_continuation` is `false`, refuting the claimed equivalence. -/
theorem c5_counterexample :
    (generate_response svc0 backendOnce 2 [userHi]).map
      (fun r => (r.needs_continuation, r.tool_calls.isEmpty)) =
      .ok (false, false) :=
  rfl

/-- C5 (amended): `needs_continuation` is `false` in every result
`generate_response` returns, whether or not tool calls were requested: the
field is initialized to `False` and never assigned, since continuation is
resolved internally by the recursive call. -/
theorem c5_needs_continuation_always_false (svc : OpenWeatherService)
    (backend : Backend) :
    ∀ (fuel : Nat) (msgs : List Msg) (r : GenResult),
      generate_response svc backend fuel msgs = .ok r →
      r.needs_continuation = false := by
  intro fuel
  induction fuel with
  | zero => intro msgs r h; exact absurd h (by simp [generate_response])
  | succ n ih =>
    intro msgs r h
    simp only [generate_response] at h
    split at h
    · exact Except.noConfusion h
    · rename_i message hb
      by_cases hie : message.tool_calls.isEmpty = true
      · rw [if_pos hie] at h
        have h' := Except.ok.inj h
        rw [← h']
      · rw [if_neg hie] at h
        split at h
        · exact Except.noConfusion h
        · split at h
          · exact Except.noConfusion h
          · rename_i fr hrec
            have h' := Except.ok.inj h
            rw [← h']
            exact ih _ fr hrec

/-- C5 witness: the always-false theorem applied to a concrete terminal run. -/
theorem c5_needs_continuation_always_false_witness :
    ({ response := some "hello", tool_calls := [], tool_results := [],
       needs_continuation := false } : GenResult).needs_continuation = false :=
  c5_needs_continuation_always_false svc0 backendDone 1 [userHi]
    { response := some "hello", tool_calls := [], tool_results := [],
      needs_continuation := false } rfl

/-- C6 counterexample: a terminal completion with null text yields a result
whose `response` is `none` — the null is not replaced by the empty string
(that coalescing happens in the caller, `views.py`, not in the
orchestrator). -/
theorem c6_counterexample :
    (generate_response svc0 backendNullDone 1 [userHi]).map GenResult.response =
      .ok none ∧
    (generate_response svc0 backendNullDone 1 [userHi]).map GenResult.response ≠
      .ok (some "") := by
  constructor
  · rfl
  · intro h
    rw [show (generate_response svc0 backendNullDone 1 [userHi]).map GenResult.response =
        (.ok none : Except PyErr (Option String)) from rfl] at h
    exact Option.noConfusion (Except.ok.inj h)

/-- C6 (amended): on a terminal completion (empty `tool_calls`) the returned
`response` is the completion's text verbatim — in particular `none` when the
backend's content is null, never coerced to the empty string. -/
theorem c6_terminal_response_is_verbatim_content (svc : OpenWeatherService)
    (backend : Backend) (fuel : Nat) (msgs : List Msg) (m : RespMsg)
    (hb : backend (initRegistry svc).function_schemas (sanitize msgs) = .ok m)
    (hnc : m.tool_calls = []) :
    generate_response svc backend (fuel + 1) msgs =
      .ok { response := m.content, tool_calls := [], tool_results := [],
            needs_continuation := false } := by
  simp only [generate_response, hb, hnc]
  simp

/-- C6 witness: the verbatim-content theorem applied to a backend returning
null text and no tool calls. -/
theorem c6_terminal_response_is_verbatim_content_witness :
    generate_response svc0 backendNullDone 1 [userHi] =
      .ok { response := none, tool_calls := [], tool_results := [],
            needs_continuation := false } :=
  c6_terminal_response_is_verbatim_content svc0 backendNullDone 0 [userHi]
    { content := none, tool_calls := [] } rfl rfl

/-- C3 counterexample: a round requesting an unregistered tool followed by a
registered one yields a result record only for the registered sibling; the
failed lookup produces no `ToolResult` at all — in particular none whose
value is a structured error payload naming it. -/
theorem c3_counterexample :
    (runToolCalls (initRegistry svc0).functions [tcUnknown, tcParis]).map
      (fun p => (p.1.map ToolCall.id, p.2.map ToolResultRec.tool_call_id)) =
      .ok (["u1", "t1"], ["t1"]) :=
  rfl

/-- C3 (amended): a call whose name is not in the registry is skipped
silently: it is still recorded among the round's `tool_calls`, contributes
no `ToolResult` and raises nothing, and the sibling calls' results are
exactly those of the round without it. -/
theorem c3_unknown_tool_skipped_without_exception
    (fns : List (String × Handler)) (tc : ToolCall) (tcs : List ToolCall)
    (hn : lookupFn fns tc.function.name = none) :
    runToolCalls fns (tc :: tcs) =
      (runToolCalls fns tcs).map
        (fun p => ({ id := tc.id, type := tc.type,
                     function := { name := tc.function.name,
                                   arguments := tc.function.arguments } } :: p.1,
                   p.2)) := by
  cases hrest : runToolCalls fns tcs with
  | error e => simp [runToolCalls, hn, hrest, Except.map]
  | ok p =>
    obtain ⟨cs, rs⟩ := p
    simp [runToolCalls, hn, hrest, Except.map]

/-- C3 witness: the skipping theorem applied to the unknown call `tcUnknown`
with the registered sibling `tcParis`. -/
theorem c3_unknown_tool_skipped_without_exception_witness :
    runToolCalls (initRegistry svc0).functions [tcUnknown, tcParis] =
      (runToolCalls (initRegistry svc0).functions [tcParis]).map
        (fun p => ({ id := tcUnknown.id, type := tcUnknown.type,
                     function := { name := tcUnknown.function.name,
                                   arguments := tcUnknown.function.arguments } } :: p.1,
                   p.2)) :=
  c3_unknown_tool_skipped_without_exception (initRegistry svc0).functions
    tcUnknown [tcParis] rfl

/-- C4 counterexample: a handler that raises during dispatch — here the
`TypeError` from binding a call of the registered `get_current_weather` with
its required `location` argument missing — is not captured into a
`ToolResult`: it escapes `generate_response` to the caller, and it is not an
`UpstreamError`. -/
theorem c4_counterexample :
    generate_response svc0 backendBadArgs 2 [userHi] =
      .error (.typeError "missing required argument: location") :=
  rfl

/-- C4 (amended): containment happens inside the registered wrappers, not at
the dispatch loop: an exception raised by the weather client inside the
wrapper body is caught and returned as the handler's value — the structured
payload with `error` and `location` fields — so it becomes the `ToolResult`
value; but an exception escaping the handler itself (such as the
argument-binding `TypeError`) propagates uncaught out of `generate_response`. -/
theorem c4_wrapper_captures_service_errors (svc : OpenWeatherService)
    (args : ArgDict) (location : JVal) (e : String)
    (hkeys : argKeysOk ["location", "units"] args = true)
    (hloc : lookupArg args "location" = some location)
    (hsvc : svc.get_current_weather location
      ((lookupArg args "units").getD (.str "metric")) = .error e) :
    _get_current_weather_wrapper svc args =
      .ok (.obj [("error", .str e), ("location", location)]) := by
  simp [_get_current_weather_wrapper, hkeys, hloc, hsvc]

/-- C4 witness: the containment theorem applied to a client whose
current-weather lookup raises "Location not found". -/
theorem c4_wrapper_captures_service_errors_witness :
    _get_current_weather_wrapper svcErr [("location", JVal.str "Atlantis")] =
      .ok (.obj [("error", .str "Location not found"),
                 ("location", .str "Atlantis")]) :=
  c4_wrapper_captures_service_errors svcErr [("location", JVal.str "Atlantis")]
    (JVal.str "Atlantis") "Location not found" rfl rfl rfl

/-- C7 counterexample: one input call with an unregistered name yields zero
result records, not exactly one per input call. -/
theorem c7_counterexample :
    runToolCalls (initRegistry svc0).functions [tcUnknown] = .ok ([tcUnknown], []) :=
  rfl

/-- C7 (amended): when the round completes without a handler exception, the
recorded calls echo every input call's id in input order, but a result
record is produced only for the input calls whose name is registered — in
input order and echoing the originating call's id; unregistered calls get no
result. -/
theorem c7_results_in_order_for_registered_calls
    (fns : List (String × Handler)) (tcs : List ToolCall) :
    ∀ (calls : List ToolCall) (results : List ToolResultRec),
      runToolCalls fns tcs = .ok (calls, results) →
      calls.map ToolCall.id = tcs.map ToolCall.id ∧
      results.map ToolResultRec.tool_call_id =
        (tcs.filter (fun tc => (lookupFn fns tc.function.name).isSome)).map
          ToolCall.id := by
  induction tcs with
  | nil =>
    intro calls results h
    simp only [runToolCalls, Except.ok.injEq, Prod.mk.injEq] at h
    obtain ⟨h1, h2⟩ := h
    subst h1
    subst h2
    simp
  | cons tc rest ih =>
    intro calls results h
    simp only [runToolCalls] at h
    split at h
    · rename_i f hf
      split at h
      · exact Except.noConfusion h
      · rename_i v hv
        split at h
        · exact Except.noConfusion h
        · rename_i cs rs hrest
          rw [Except.ok.injEq, Prod.mk.injEq] at h
          obtain ⟨hc, hr⟩ := h
          subst hc
          subst hr
          obtain ⟨ih1, ih2⟩ := ih cs rs hrest
          constructor
          · simp [ih1]
          · simp [ih2, List.filter_cons, hf]
    · rename_i hn
      split at h
      · exact Except.noConfusion h
      · rename_i cs rs hrest
        rw [Except.ok.injEq, Prod.mk.injEq] at h
        obtain ⟨hc, hr⟩ := h
        subst hc
        subst hr
        obtain ⟨ih1, ih2⟩ := ih cs rs hrest
        constructor
        · simp [ih1]
        · simp [ih2, List.filter_cons, hn]

/-- C7 witness: the order/echo theorem applied to the singleton round calling
the registered `get_current_weather` tool. -/
theorem c7_results_in_order_for_registered_calls_witness :
    [tcParis].map ToolCall.id = [tcParis].map ToolCall.id ∧
    [({ tool_call_id := "t1", function_name := "get_current_weather",
        function_args := [("location", JVal.str "Paris")],
        result := .obj [("temperature", .num 18), ("description", .str "clear sky")] } :
      ToolResultRec)].map ToolResultRec.tool_call_id =
      ([tcParis].filter
        (fun tc => (lookupFn (initRegistry svc0).functions tc.function.name).isSome)).map
        ToolCall.id :=
  c7_results_in_order_for_registered_calls (initRegistry svc0).functions [tcParis]
    [tcParis]
    [{ tool_call_id := "t1", function_name := "get_current_weather",
       function_args := [("location", JVal.str "Paris")],
       result := .obj [("temperature", .num 18), ("description", .str "clear sky")] }]
    rfl

/-- C8 counterexample: `get_current_weather` is already registered in the
initial registry, yet registering it again does not fail: it returns a
registry whose schema list now holds two entries under that name, refuting
both the promised `DuplicateToolError` and the at-most-one-schema-entry
consequence. -/
theorem c8_counterexample :
    ((initRegistry svc0).function_schemas.countP
      (fun s => s.function.name == "get_current_weather")) = 1 ∧
    ((register_function (initRegistry svc0) (fun _ => .ok .null)
        "get_current_weather" "duplicate registration" .null).function_schemas.countP
      (fun s => s.function.name == "get_current_weather")) = 2 :=
  ⟨rfl, rfl⟩

/-- C8 (amended): registering a name that is already registered never fails:
the handler map silently overwrites the existing binding in place (so it
still holds at most one handler per name, now the new one), while the schema
list appends a second entry for the same name. -/
theorem c8_register_existing_name_overwrites (svc : OpenWeatherService)
    (f : Handler) (d : String) (p : JVal) :
    lookupFn (register_function (initRegistry svc) f "get_current_weather" d p).functions
      "get_current_weather" = some f ∧
    (register_function (initRegistry svc) f "get_current_weather" d p).functions.map
      Prod.fst = (initRegistry svc).functions.map Prod.fst ∧
    (register_function (initRegistry svc) f "get_current_weather" d p).function_schemas =
      (initRegistry svc).function_schemas ++
        [{ type := "function",
           function := { name := "get_current_weather", description := d,
                         parameters := p } }] :=
  ⟨rfl, rfl, rfl⟩

end WeatherBot
